import Mathlib

set_option maxRecDepth 16384

/-!
Verification of the error-translation layer in `src/error.rs`: the unified
`Error` enum, the exception-class declarations made by `create_exception!`,
the `wrap_error!` predicate cascade, and the projection
`impl From<Error> for PyErr`.

Modelling choices. The projection observes each foreign payload
(`header::InvalidHeaderName`, `header::InvalidHeaderValue`,
`url::ParseError`, `std::io::Error`) only through its `{:?}` debug
rendering, so each payload is modelled as the `String` produced by that
rendering. The opaque engine fault `rquest::Error` is observed only
through its nine boolean classification methods and its debug rendering,
so it is modelled as a record of those ten observations.
-/

/-- The host (Python) exception classes: the ones declared by
`create_exception!` in `src/error.rs` plus the pyo3 built-in classes the
file imports and uses (`PyException`, `PyRuntimeError`, `PyStopIteration`,
`PyStopAsyncIteration`). -/
inductive ExcClass where
  | PyException
  | PyRuntimeError
  | PyStopIteration
  | PyStopAsyncIteration
  | BorrowingError
  | DNSResolverError
  | BaseError
  | BodyError
  | BuilderError
  | ConnectionError
  | DecodingError
  | RedirectError
  | TimeoutError
  | StatusError
  | RequestError
  | UnknownError
  | HTTPMethodParseError
  | URLParseError
  | MIMEParseError
deriving DecidableEq

/-- Immediate superclass of each exception class, following the
`create_exception!(exceptions, Class, Parent)` declarations in
`src/error.rs` and the Python built-in hierarchy (`RuntimeError`,
`StopIteration` and `StopAsyncIteration` all derive from `Exception`). -/
def parent : ExcClass → Option ExcClass
  | .PyException => none
  | .PyRuntimeError => some .PyException
  | .PyStopIteration => some .PyException
  | .PyStopAsyncIteration => some .PyException
  | .BorrowingError => some .PyRuntimeError
  | .DNSResolverError => some .PyRuntimeError
  | .BaseError => some .PyException
  | .BodyError => some .BaseError
  | .BuilderError => some .BaseError
  | .ConnectionError => some .BaseError
  | .DecodingError => some .BaseError
  | .RedirectError => some .BaseError
  | .TimeoutError => some .BaseError
  | .StatusError => some .BaseError
  | .RequestError => some .BaseError
  | .UnknownError => some .BaseError
  | .HTTPMethodParseError => some .PyException
  | .URLParseError => some .PyException
  | .MIMEParseError => some .PyException

/-- The class together with its ancestors along `parent`, with enough fuel
for the whole hierarchy (its depth is at most three). -/
def ancestorsAux : Nat → ExcClass → List ExcClass
  | 0, _ => []
  | fuel + 1, c =>
    c :: (match parent c with
          | none => []
          | some p => ancestorsAux fuel p)

/-- Reflexive-transitive subclass test over `parent`. -/
def isSubclassOf (c d : ExcClass) : Bool :=
  (ancestorsAux 5 c).contains d

/-- The opaque engine fault `rquest::Error`. The cascade observes it only
through the nine boolean classification predicates and its `{:?}` debug
rendering; field order follows the cascade in `src/error.rs`. -/
structure RquestError where
  is_body : Bool
  is_connect : Bool
  is_connection_reset : Bool
  is_decode : Bool
  is_redirect : Bool
  is_timeout : Bool
  is_status : Bool
  is_request : Bool
  is_builder : Bool
  debugFmt : String
deriving DecidableEq

/-- The unified error enum of `src/error.rs`. Payload-carrying variants
hold the debug rendering of their foreign payload. -/
inductive Error where
  | MemoryError
  | StopIteration
  | StopAsyncIteration
  | WebSocketDisconnect
  | InvalidHeaderName (e : String)
  | InvalidHeaderValue (e : String)
  | UrlParseError (e : String)
  | IoError (e : String)
  | RquestError (e : RquestError)
deriving DecidableEq

/-- The raw string constant `RACE_CONDITION_ERROR_MSG` of `src/error.rs`. -/
def RACE_CONDITION_ERROR_MSG : String :=
  "Due to Rust's memory management with borrowing,\nyou cannot use certain instances multiple times as they may be consumed.\n\nThis error can occur in the following cases:\n1) You passed a non-clonable instance to a function that requires ownership.\n2) You attempted to use a method that consumes ownership more than once (e.g., reading a response body twice).\n3) You tried to reference an instance after it was borrowed.\n\nPotential solutions:\n1) Avoid sharing instances; create a new instance each time you use it.\n2) Refrain from performing actions that consume ownership multiple times.\n3) Change the order of operations to reference the instance before borrowing it.\n"

/-- A pyo3 `PyErr` as produced by `Class::new_err(message)`: the selected
exception class plus the message string. -/
structure PyErr where
  cls : ExcClass
  msg : String
deriving DecidableEq

/-- The `wrap_error!` macro of `src/error.rs`, expanded at its single use
site: the ordered predicate cascade over the opaque engine fault. Each
arm's message is `stringify!(predicate) ++ " error: " ++ debug`; when no
predicate holds the fallback is `UnknownError` with message
`"Unknown error occurred: " ++ debug`. -/
def wrap_error (e : RquestError) : PyErr :=
  if e.is_body then ⟨.BodyError, "is_body error: " ++ e.debugFmt⟩
  else if e.is_connect then ⟨.ConnectionError, "is_connect error: " ++ e.debugFmt⟩
  else if e.is_connection_reset then
    ⟨.ConnectionError, "is_connection_reset error: " ++ e.debugFmt⟩
  else if e.is_decode then ⟨.DecodingError, "is_decode error: " ++ e.debugFmt⟩
  else if e.is_redirect then ⟨.RedirectError, "is_redirect error: " ++ e.debugFmt⟩
  else if e.is_timeout then ⟨.TimeoutError, "is_timeout error: " ++ e.debugFmt⟩
  else if e.is_status then ⟨.StatusError, "is_status error: " ++ e.debugFmt⟩
  else if e.is_request then ⟨.RequestError, "is_request error: " ++ e.debugFmt⟩
  else if e.is_builder then ⟨.BuilderError, "is_builder error: " ++ e.debugFmt⟩
  else ⟨.UnknownError, "Unknown error occurred: " ++ e.debugFmt⟩

/-- The projection `impl From<Error> for PyErr` of `src/error.rs`. -/
def PyErr.fromError : Error → PyErr
  | .MemoryError => ⟨.PyRuntimeError, RACE_CONDITION_ERROR_MSG⟩
  | .StopIteration => ⟨.PyStopIteration, "The iterator is exhausted"⟩
  | .StopAsyncIteration => ⟨.PyStopAsyncIteration, "The iterator is exhausted"⟩
  | .WebSocketDisconnect => ⟨.PyRuntimeError, "The WebSocket has been disconnected"⟩
  | .InvalidHeaderName e => ⟨.PyRuntimeError, "Invalid header name: " ++ e⟩
  | .InvalidHeaderValue e => ⟨.PyRuntimeError, "Invalid header value: " ++ e⟩
  | .UrlParseError e => ⟨.URLParseError, "URL parse error: " ++ e⟩
  | .IoError e => ⟨.PyRuntimeError, "IO error: " ++ e⟩
  | .RquestError e => wrap_error e

/-- Discriminator for the `UrlParseError` variant of `Error`. -/
def Error.isUrlParse : Error → Bool
  | .UrlParseError _ => true
  | _ => false

/-- Appending to a nonempty string yields a nonempty string. -/
lemma append_length_pos (s t : String) (h : 0 < s.length) : 0 < (s ++ t).length := by
  rw [String.length_append]
  omega

/-- Appending the same suffix to prefixes of different lengths yields
different strings. -/
lemma append_beq_false_of_length_ne (s t p : String) (h : s.length ≠ t.length) :
    (s ++ p == t ++ p) = false := by
  apply beq_eq_false_iff_ne.mpr
  intro heq
  apply h
  have hl := congrArg String.length heq
  rw [String.length_append, String.length_append] at hl
  exact Nat.add_right_cancel hl

/-- Any string of the shape `c ++ t` passes the suffix test for `t` on its
underlying character list. -/
lemma suffix_data_of_append (c t : String) :
    List.isSuffixOf t.data (c ++ t).data = true := by
  rw [String.data_append]
  exact List.isSuffixOf_iff_suffix.mpr (List.suffix_append c.data t.data)

/-- Claim C1, counterexample: an engine fault on which `is_connect` and
`is_timeout` are both true but `is_body` is also true projects to
`BodyError`, not `ConnectionError`, because the `is_body` predicate is
tested first in the cascade; so the claim as stated (quantifying over
every fault with both predicates true) fails. -/
theorem connect_timeout_body_counterexample :
    (PyErr.fromError (Error.RquestError
        ⟨true, true, false, false, false, true, false, false, false, "e"⟩)).cls
      = ExcClass.BodyError ∧
    ((PyErr.fromError (Error.RquestError
        ⟨true, true, false, false, false, true, false, false, false, "e"⟩)).cls
      == ExcClass.ConnectionError) = false :=
  ⟨rfl, rfl⟩

/-- Claim C1, amended: for every engine fault on which `is_connect` and
`is_timeout` both return true and the earlier `is_body` predicate returns
false, the projection yields `ConnectionError` (the connect predicate
precedes the timeout predicate in the ordered cascade), not
`TimeoutError`. -/
theorem cascade_connect_precedes_timeout (e : RquestError)
    (hbody : e.is_body = false) (hconn : e.is_connect = true)
    (_htime : e.is_timeout = true) :
    (PyErr.fromError (Error.RquestError e)).cls = ExcClass.ConnectionError := by
  simp [PyErr.fromError, wrap_error, hbody, hconn]

/-- Witness for the amended claim C1 at a concrete fault with
`is_connect` and `is_timeout` true and `is_body` false. -/
theorem cascade_connect_precedes_timeout_witness :
    (PyErr.fromError (Error.RquestError
        ⟨false, true, false, false, false, true, false, false, false, "w"⟩)).cls
      = ExcClass.ConnectionError :=
  cascade_connect_precedes_timeout
    ⟨false, true, false, false, false, true, false, false, false, "w"⟩ rfl rfl rfl

/-- Claim C2: the projector is total. `PyErr.fromError` is a total Lean
function whose defining match covers every variant of `Error` (Lean checks
exhaustiveness), it assigns each value exactly one exception class and
message, and the message is non-empty for every input. -/
theorem projector_total_nonempty (e : Error) :
    0 < (PyErr.fromError e).msg.length := by
  cases e with
  | MemoryError => decide
  | StopIteration => decide
  | StopAsyncIteration => decide
  | WebSocketDisconnect => decide
  | InvalidHeaderName p => exact append_length_pos _ _ (by decide)
  | InvalidHeaderValue p => exact append_length_pos _ _ (by decide)
  | UrlParseError p => exact append_length_pos _ _ (by decide)
  | IoError p => exact append_length_pos _ _ (by decide)
  | RquestError r =>
    show 0 < (wrap_error r).msg.length
    unfold wrap_error
    split_ifs <;> exact append_length_pos _ _ (by decide)

/-- Claim C3: an engine fault on which all nine cascade predicates return
false projects to `UnknownError`, with message exactly
`"Unknown error occurred: "` followed by the debug rendering of the
fault. -/
theorem fallback_unknown (e : RquestError)
    (h1 : e.is_body = false) (h2 : e.is_connect = false)
    (h3 : e.is_connection_reset = false) (h4 : e.is_decode = false)
    (h5 : e.is_redirect = false) (h6 : e.is_timeout = false)
    (h7 : e.is_status = false) (h8 : e.is_request = false)
    (h9 : e.is_builder = false) :
    PyErr.fromError (Error.RquestError e)
      = ⟨ExcClass.UnknownError, "Unknown error occurred: " ++ e.debugFmt⟩ := by
  simp [PyErr.fromError, wrap_error, h1, h2, h3, h4, h5, h6, h7, h8, h9]

/-- Witness for claim C3 at a concrete fault with all nine predicates
false. -/
theorem fallback_unknown_witness :
    PyErr.fromError (Error.RquestError
        ⟨false, false, false, false, false, false, false, false, false, "boom"⟩)
      = ⟨ExcClass.UnknownError, "Unknown error occurred: " ++ "boom"⟩ :=
  fallback_unknown
    ⟨false, false, false, false, false, false, false, false, false, "boom"⟩
    rfl rfl rfl rfl rfl rfl rfl rfl rfl

/-- Claim C4: each of the four no-payload variants projects to one fixed
exception class with a fixed static message, and none of those classes
(`PyRuntimeError`, `PyStopIteration`, `PyStopAsyncIteration`) is a
subclass of the `BaseError` root. -/
theorem usage_error_isolation :
    PyErr.fromError Error.MemoryError
      = ⟨ExcClass.PyRuntimeError, RACE_CONDITION_ERROR_MSG⟩ ∧
    PyErr.fromError Error.StopIteration
      = ⟨ExcClass.PyStopIteration, "The iterator is exhausted"⟩ ∧
    PyErr.fromError Error.StopAsyncIteration
      = ⟨ExcClass.PyStopAsyncIteration, "The iterator is exhausted"⟩ ∧
    PyErr.fromError Error.WebSocketDisconnect
      = ⟨ExcClass.PyRuntimeError, "The WebSocket has been disconnected"⟩ ∧
    isSubclassOf ExcClass.PyRuntimeError ExcClass.BaseError = false ∧
    isSubclassOf ExcClass.PyStopIteration ExcClass.BaseError = false ∧
    isSubclassOf ExcClass.PyStopAsyncIteration ExcClass.BaseError = false :=
  ⟨rfl, rfl, rfl, rfl, rfl, rfl, rfl⟩

/-- Claim C5, counterexample: projecting the `MemoryError` variant yields
`PyRuntimeError`, not the `BorrowingError` class the claim names. -/
theorem memory_error_not_borrowing :
    ((PyErr.fromError Error.MemoryError).cls == ExcClass.BorrowingError) = false ∧
    (PyErr.fromError Error.MemoryError).cls = ExcClass.PyRuntimeError :=
  ⟨rfl, rfl⟩

/-- Claim C5, amended: projecting `MemoryError` yields the generic
`PyRuntimeError` class with the fixed borrowing-explanation message;
the declared `BorrowingError` class is never produced by the projector
for any variant. -/
theorem memory_error_runtime_class :
    PyErr.fromError Error.MemoryError
      = ⟨ExcClass.PyRuntimeError, RACE_CONDITION_ERROR_MSG⟩ ∧
    ∀ e : Error, ((PyErr.fromError e).cls == ExcClass.BorrowingError) = false := by
  refine ⟨rfl, ?_⟩
  intro e
  cases e
  case RquestError r =>
    show ((wrap_error r).cls == ExcClass.BorrowingError) = false
    unfold wrap_error
    split_ifs <;> rfl
  all_goals rfl

/-- Claim C6, counterexample: the classes produced for a header-name parse
fault and a header-value parse fault are not distinct; both variants
project to the same class (`PyRuntimeError`). -/
theorem header_classes_coincide :
    (PyErr.fromError (Error.InvalidHeaderName "x")).cls
      = (PyErr.fromError (Error.InvalidHeaderValue "y")).cls :=
  rfl

/-- Claim C6, amended: both header variants project to the same class,
`PyRuntimeError`, so the projections are distinguished only by their
messages, which differ for every payload (prefix `"Invalid header name: "`
versus `"Invalid header value: "`); variant selection itself stays
injective (a header-name fault is always carried by `InvalidHeaderName`,
never `InvalidHeaderValue`, and vice versa). -/
theorem header_faults_same_class_distinct_msg (n v p : String) :
    (PyErr.fromError (Error.InvalidHeaderName n)).cls = ExcClass.PyRuntimeError ∧
    (PyErr.fromError (Error.InvalidHeaderValue v)).cls = ExcClass.PyRuntimeError ∧
    ((PyErr.fromError (Error.InvalidHeaderName p)).msg
      == (PyErr.fromError (Error.InvalidHeaderValue p)).msg) = false := by
  refine ⟨rfl, rfl, ?_⟩
  exact append_beq_false_of_length_ne _ _ _ (by decide)

/-- Claim C7, counterexample: the claim forces each of the four messages
to end with `" error: "` followed by the debug rendering of the payload
(lemma `suffix_data_of_append` shows every string of the claimed shape
passes this suffix test), but the message produced for a header-name fault
with debug rendering `"x"` is `"Invalid header name: x"`, which fails the
test, so the header variants do not follow the claimed
`"<Category> error: <payload>"` pattern. -/
theorem header_name_msg_not_category_pattern :
    (PyErr.fromError (Error.InvalidHeaderName "x")).msg
      = "Invalid header name: " ++ "x" ∧
    List.isSuffixOf (" error: " ++ "x").data
      (PyErr.fromError (Error.InvalidHeaderName "x")).msg.data = false :=
  ⟨rfl, by decide⟩

/-- Claim C7, amended: the four payload-carrying variants render their
messages as `"Invalid header name: "`, `"Invalid header value: "`,
`"URL parse error: "` and `"IO error: "` followed by the debug rendering
of the payload; only the latter two follow the
`"<Category> error: <payload>"` pattern (with categories `"URL parse"` and
`"IO"`). -/
theorem payload_variant_messages (p : String) :
    PyErr.fromError (Error.InvalidHeaderName p)
      = ⟨ExcClass.PyRuntimeError, "Invalid header name: " ++ p⟩ ∧
    PyErr.fromError (Error.InvalidHeaderValue p)
      = ⟨ExcClass.PyRuntimeError, "Invalid header value: " ++ p⟩ ∧
    PyErr.fromError (Error.UrlParseError p)
      = ⟨ExcClass.URLParseError, "URL parse" ++ " error: " ++ p⟩ ∧
    PyErr.fromError (Error.IoError p)
      = ⟨ExcClass.PyRuntimeError, "IO" ++ " error: " ++ p⟩ :=
  ⟨rfl, rfl, rfl, rfl⟩

/-- Claim C8: projecting a URL parse fault whose debug rendering is
`"EmptyHost"` yields the `URLParseError` class with message exactly
`"URL parse error: EmptyHost"`. -/
theorem url_emptyhost_roundtrip (p : String) (h : p = "EmptyHost") :
    PyErr.fromError (Error.UrlParseError p)
      = ⟨ExcClass.URLParseError, "URL parse error: EmptyHost"⟩ := by
  subst h
  rfl

/-- Witness for claim C8 at the concrete payload `"EmptyHost"`. -/
theorem url_emptyhost_roundtrip_witness :
    PyErr.fromError (Error.UrlParseError "EmptyHost")
      = ⟨ExcClass.URLParseError, "URL parse error: EmptyHost"⟩ :=
  url_emptyhost_roundtrip "EmptyHost" rfl

/-- Claim C9: no value of `Error` projects to `HTTPMethodParseError` or
`MIMEParseError`, and the projection produces `URLParseError` exactly on
the `UrlParseError` variant. -/
theorem parse_classes_unreachable (e : Error) :
    ((PyErr.fromError e).cls == ExcClass.HTTPMethodParseError) = false ∧
    ((PyErr.fromError e).cls == ExcClass.MIMEParseError) = false ∧
    ((PyErr.fromError e).cls == ExcClass.URLParseError) = Error.isUrlParse e := by
  cases e
  case RquestError r =>
    show ((wrap_error r).cls == ExcClass.HTTPMethodParseError) = false ∧
      ((wrap_error r).cls == ExcClass.MIMEParseError) = false ∧
      ((wrap_error r).cls == ExcClass.URLParseError) = false
    unfold wrap_error
    split_ifs <;> exact ⟨rfl, rfl, rfl⟩
  all_goals exact ⟨rfl, rfl, rfl⟩

/-- Claim C10: the `StopIteration` and `StopAsyncIteration` variants
project to two distinct classes (`PyStopIteration` and
`PyStopAsyncIteration`) carrying the identical message
`"The iterator is exhausted"`. -/
theorem stop_iteration_classes_distinct_same_msg :
    PyErr.fromError Error.StopIteration
      = ⟨ExcClass.PyStopIteration, "The iterator is exhausted"⟩ ∧
    PyErr.fromError Error.StopAsyncIteration
      = ⟨ExcClass.PyStopAsyncIteration, "The iterator is exhausted"⟩ ∧
    ((PyErr.fromError Error.StopIteration).cls
      == (PyErr.fromError Error.StopAsyncIteration).cls) = false ∧
    (PyErr.fromError Error.StopIteration).msg
      = (PyErr.fromError Error.StopAsyncIteration).msg :=
  ⟨rfl, rfl, rfl, rfl⟩
